import Mathlib

/-!
Verification development for the restaurant-booking dialogue engine
(`backend/tools.py`, `backend/agent_simple.py`, `backend/agent.py`,
`backend/agent_ollama.py`, `backend/booking_client.py`).

Strings are modelled as `List Char` (ASCII); Python string idioms
(`lower`, `strip`, `in`, `split`, `title`, `upper`) are given faithful
executable counterparts.  The concrete regular expressions appearing in
the source are rendered as dedicated left-to-right scanners that mirror
Python `re.search` semantics (leftmost match, greedy quantifiers with
the local backtracking those particular patterns permit, `\b` word
boundaries, negative lookahead where used).  Dates are handled
positionally: `datetime.now()` is abstracted to its weekday
(`Monday = 0`, the convention of Python's `date.weekday()`) plus the
current year where the code consults `today.year`, and a resolved
relative date "today + k days" is represented by the offset `k`.
-/

namespace PyStr

/-- ASCII rendering of Python `str.lower` (non-ASCII untouched, which is
exact on every string considered here). -/
def lowerC (c : Char) : Char :=
  if 'A' ≤ c ∧ c ≤ 'Z' then Char.ofNat (c.toNat + 32) else c

/-- ASCII rendering of Python `str.upper`. -/
def upperC (c : Char) : Char :=
  if 'a' ≤ c ∧ c ≤ 'z' then Char.ofNat (c.toNat - 32) else c

def lowerL (s : List Char) : List Char := s.map lowerC

def upperL (s : List Char) : List Char := s.map upperC

def isDigitCh (c : Char) : Bool := '0' ≤ c ∧ c ≤ '9'

def isAlphaCh (c : Char) : Bool :=
  ('a' ≤ c ∧ c ≤ 'z') ∨ ('A' ≤ c ∧ c ≤ 'Z')

/-- Word character for `\b` boundaries: `[A-Za-z0-9_]` (ASCII). -/
def isWordCh (c : Char) : Bool := isAlphaCh c ∨ isDigitCh c ∨ c = '_'

/-- Python `str.isspace` characters relevant to `\s` / `strip`. -/
def isWsCh (c : Char) : Bool :=
  c = ' ' ∨ c = '\t' ∨ c = '\n' ∨ c = '\x0d' ∨ c = '\x0c' ∨ c = '\x0b'

/-- Python `str.strip()` with no arguments: drop whitespace on both ends. -/
def stripL (s : List Char) : List Char :=
  ((s.dropWhile isWsCh).reverse.dropWhile isWsCh).reverse

/-- Python substring containment `sub in s`. -/
def hasSub (sub s : List Char) : Bool :=
  match s with
  | [] => sub.isEmpty
  | _ :: rest => sub.isPrefixOf s || hasSub sub rest

/-- Python `s.split()` (split on whitespace runs, discarding empties). -/
def wordsOf (s : List Char) : List (List Char) :=
  let step : Char → List (List Char) → List (List Char) := fun c acc =>
    if isWsCh c then [] :: acc
    else
      match acc with
      | [] => [[c]]
      | w :: ws => (c :: w) :: ws
  (s.foldr step []).filter (fun w => ¬ w.isEmpty)

/-- Numeric value of a digit string (Python `int` on a `\d+` capture). -/
def natFromDigits (ds : List Char) : Nat :=
  ds.foldl (fun acc c => acc * 10 + (c.toNat - '0'.toNat)) 0

/-- Decimal digits of `n`, most significant first. -/
def natToChars (n : Nat) : List Char :=
  (Nat.toDigits 10 n)

/-- Python `f"{n:02d}"`. -/
def fmt02 (n : Nat) : List Char :=
  if n < 10 then ['0', Char.ofNat ('0'.toNat + n)] else natToChars n

/-- Python `str.title()` (ASCII): a letter that follows a non-letter is
uppercased, every other letter is lowercased. -/
def titleGo : Bool → List Char → List Char
  | _, [] => []
  | prevAlpha, c :: rest =>
    let c' := if isAlphaCh c then (if prevAlpha then lowerC c else upperC c) else c
    c' :: titleGo (isAlphaCh c) rest

def titleL (s : List Char) : List Char := titleGo false s

/-- Maximal run of digits at the front: `(digits, rest)`. -/
def takeDigits (s : List Char) : List Char × List Char :=
  (s.takeWhile isDigitCh, s.dropWhile isDigitCh)

/-- Maximal run of whitespace at the front: `(ws, rest)`. -/
def takeWs (s : List Char) : List Char × List Char :=
  (s.takeWhile isWsCh, s.dropWhile isWsCh)

/-- Whether `\b` holds just before the head of `s` given the previous character
(`none` at the start of the string), assuming the pattern continues with
a word character. -/
def atWordStart (prev : Option Char) : Bool :=
  match prev with
  | none => true
  | some c => ¬ isWordCh c

/-- Whether `\b` holds right after a word character when the remaining input is
`s`: end of string or a non-word character. -/
def wordEndAt (s : List Char) : Bool :=
  match s with
  | [] => true
  | c :: _ => ¬ isWordCh c

end PyStr

open PyStr

namespace Tools

/-! Model of `backend/tools.py`, class `DateTimeParser`. -/

/-- The two-line Python idiom
`days_ahead = target - today.weekday(); if days_ahead <= 0: days_ahead += 7`
(`tools.py:32-34,37-39,50-52`, `agent_simple.py:178-180` etc.),
rendered over `Nat`. -/
def nextWeekdayOffset (target wd : Nat) : Nat :=
  if target ≤ wd then target + 7 - wd else target - wd

/-- Weekday names in the order of the `weekdays` dict
(`tools.py:43-46`), index = Python `date.weekday()` number. -/
def weekdayName : Nat → List Char
  | 0 => "monday".data
  | 1 => "tuesday".data
  | 2 => "wednesday".data
  | 3 => "thursday".data
  | 4 => "friday".data
  | 5 => "saturday".data
  | _ => "sunday".data

/-- First weekday name contained in `d` (the `for day_name, day_num in
weekdays.items()` loop, `tools.py:48-55`), with the `'next'` bonus. -/
def weekdayLoop (d : List Char) (wd : Nat) : Option Nat :=
  let go : List Nat → Option Nat := fun idxs =>
    idxs.foldl
      (fun acc i =>
        match acc with
        | some k => some k
        | none =>
          if hasSub (weekdayName i) d then
            some (nextWeekdayOffset i wd + (if hasSub "next".data d then 7 else 0))
          else none)
      none
  go [0, 1, 2, 3, 4, 5, 6]

/-- The relative-date section of `DateTimeParser.parse_date`
(`tools.py:23-55`): the if/elif keyword chain followed by the weekday
loop, returning "days ahead of today". -/
def relSection (d : List Char) (wd : Nat) : Option Nat :=
  if hasSub "today".data d then some 0
  else if hasSub "tomorrow".data d then some 1
  else if hasSub "day after tomorrow".data d then some 2
  else if hasSub "weekend".data d || hasSub "saturday".data d then
    some (nextWeekdayOffset 5 wd)
  else if hasSub "sunday".data d then some (nextWeekdayOffset 6 wd)
  else weekdayLoop d wd

/-- Gregorian leap year, as `datetime` validates it. -/
def isLeap (y : Nat) : Bool := (y % 4 = 0 ∧ y % 100 ≠ 0) ∨ y % 400 = 0

def daysInMonth (y m : Nat) : Nat :=
  if m = 2 then (if isLeap y then 29 else 28)
  else if m = 4 ∨ m = 6 ∨ m = 9 ∨ m = 11 then 30
  else 31

/-- Validity check done by the `datetime(year, month, day)` constructor. -/
def validDate (y m d : Nat) : Bool :=
  1 ≤ y ∧ y ≤ 9999 ∧ 1 ≤ m ∧ m ≤ 12 ∧ 1 ≤ d ∧ d ≤ daysInMonth y m

/-- CPython `strptime` field `%d`: alternation `3[01]|[12]\d|0[1-9]|[1-9]`;
two-digit alternatives are tried before the one-digit one, and the choice
must be followed by the format's next literal, here a separator or the
end.  Returns `(value, rest)`. -/
def strpTwoOrOne (maxTwo : List Char → Option Nat) (maxOne : Char → Option Nat)
    (s : List Char) (nextOk : List Char → Bool) : Option (Nat × List Char) :=
  match s with
  | a :: b :: rest =>
    match maxTwo [a, b] with
    | some v => if nextOk rest then some (v, rest) else
        match maxOne a with
        | some w => if nextOk (b :: rest) then some (w, b :: rest) else none
        | none => none
    | none =>
      match maxOne a with
      | some w => if nextOk (b :: rest) then some (w, b :: rest) else none
      | none => none
  | [a] =>
    match maxOne a with
    | some w => if nextOk [] then some (w, []) else none
    | none => none
  | [] => none

def dayTwo (cs : List Char) : Option Nat :=
  match cs with
  | [a, b] =>
    if isDigitCh a ∧ isDigitCh b then
      let v := natFromDigits [a, b]
      if 1 ≤ v ∧ v ≤ 31 then some v else none
    else none
  | _ => none

def monthTwo (cs : List Char) : Option Nat :=
  match cs with
  | [a, b] =>
    if isDigitCh a ∧ isDigitCh b then
      let v := natFromDigits [a, b]
      if 1 ≤ v ∧ v ≤ 12 then some v else none
    else none
  | _ => none

def oneDigit19 (c : Char) : Option Nat :=
  if '1' ≤ c ∧ c ≤ '9' then some (c.toNat - '0'.toNat) else none

/-- Field `%Y`: exactly four digits. -/
def yearFour (s : List Char) : Option (Nat × List Char) :=
  match s with
  | a :: b :: c :: d :: rest =>
    if isDigitCh a ∧ isDigitCh b ∧ isDigitCh c ∧ isDigitCh d then
      some (natFromDigits [a, b, c, d], rest)
    else none
  | _ => none

/-- One `strptime` attempt for a three-field format.  `order` lists the
fields as they appear (`"Y"`, `"m"`, `"d"`); `sep` is the literal
separator; the whole string must be consumed; the resulting calendar
date must be constructible. -/
def strpFormat (order : List Char) (sep : Char) (s : List Char) :
    Option (Nat × Nat × Nat) :=
  let field : Char → List Char → (List Char → Bool) → Option (Nat × List Char) :=
    fun f str nextOk =>
      match f with
      | 'Y' => match yearFour str with
               | some (v, rest) => if nextOk rest then some (v, rest) else none
               | none => none
      | 'm' => strpTwoOrOne monthTwo oneDigit19 str nextOk
      | _   => strpTwoOrOne dayTwo oneDigit19 str nextOk
  match order with
  | [f1, f2, f3] =>
    match field f1 s (fun r => r.head? = some sep) with
    | some (v1, r1) =>
      match r1 with
      | _ :: r1' =>
        match field f2 r1' (fun r => r.head? = some sep) with
        | some (v2, r2) =>
          match r2 with
          | _ :: r2' =>
            match field f3 r2' (fun r => r.isEmpty) with
            | some (v3, _) =>
              let pick : Char → Nat := fun f =>
                if f = 'Y' then 0 else if f = 'm' then 1 else 2
              let assoc := [(pick f1, v1), (pick f2, v2), (pick f3, v3)]
              let get : Nat → Nat := fun i =>
                (assoc.lookup i).getD 0
              let y := get 0
              let m := get 1
              let d := get 2
              if validDate y m d then some (y, m, d) else none
            | none => none
          | [] => none
        | none => none
      | [] => none
    | none => none
  | _ => none

/-- The `formats` loop of `parse_date` (`tools.py:57-67`): the six fixed
`strptime` formats tried in order. -/
def formatSection (d : List Char) : Option (Nat × Nat × Nat) :=
  (strpFormat ['Y', 'm', 'd'] '-' d).orElse fun _ =>
  (strpFormat ['d', 'm', 'Y'] '/' d).orElse fun _ =>
  (strpFormat ['m', 'd', 'Y'] '/' d).orElse fun _ =>
  (strpFormat ['Y', 'm', 'd'] '/' d).orElse fun _ =>
  (strpFormat ['d', 'm', 'Y'] '-' d).orElse fun _ =>
  (strpFormat ['m', 'd', 'Y'] '-' d)

/-- Match of the day/month regex of `tools.py:70` at the head of `s`:
`(\d{1,2}) sep (\d{1,2}) (sep (\d{2,4}))?` with `sep` a slash or dash
character class; greedy `\d{1,2}` (two digits, else one), a separator,
the second number, and an optional separator + 2-4 digit year. -/
def slashAt (s : List Char) : Option (Nat × Nat × Option Nat) :=
  let isSep : Char → Bool := fun c => c = '/' || c = '-'
  let num12 : List Char → Option (List Char × List Char) := fun str =>
    match str with
    | a :: b :: rest =>
      if isDigitCh a then
        if isDigitCh b then some ([a, b], rest) else some ([a], b :: rest)
      else none
    | [a] => if isDigitCh a then some ([a], []) else none
    | [] => none
  match num12 s with
  | none => none
  | some (d1, r1) =>
    -- with two digits taken, the separator must follow; else retry with one
    let tryFrom : List Char → List Char → Option (Nat × Nat × Option Nat) :=
      fun ds rest =>
        match rest with
        | sep :: r2 =>
          if isSep sep then
            match num12 r2 with
            | some (d2, r3) =>
              let year :=
                match r3 with
                | sep2 :: r4 =>
                  if isSep sep2 then
                    let run := r4.takeWhile isDigitCh
                    if run.length ≥ 2 then some (natFromDigits (run.take 4))
                    else none
                  else none
                | [] => none
              some (natFromDigits ds, natFromDigits d2, year)
            | none => none
          else none
        | [] => none
    match tryFrom d1 r1 with
    | some r => some r
    | none =>
      match d1 with
      | [a, b] => tryFrom [a] (b :: r1)
      | _ => none

/-- The `re.search` of the day/month regex (`tools.py:70`): leftmost match. -/
def slashSearch (s : List Char) : Option (Nat × Nat × Option Nat) :=
  match s with
  | [] => none
  | _ :: rest =>
    match slashAt s with
    | some r => some r
    | none => slashSearch rest

/-- The "try to extract date components" fallback (`tools.py:69-92`):
2-digit years get `+2000`, a missing year becomes `today.year`, then the
DD/MM reading is tried before MM/DD. -/
def slashSection (d : List Char) (todayYear : Nat) : Option (Nat × Nat × Nat) :=
  match slashSearch d with
  | none => none
  | some (dayOrMonth, monthOrDay, yearOpt) =>
    let year :=
      match yearOpt with
      | some y => if y < 100 then y + 2000 else y
      | none => todayYear
    if validDate year monthOrDay dayOrMonth then some (year, monthOrDay, dayOrMonth)
    else if validDate year dayOrMonth monthOrDay then some (year, dayOrMonth, monthOrDay)
    else none

/-- Result of `DateTimeParser.parse_date`.  `relative k` stands for the
string `(today + timedelta(days=k)).strftime('%Y-%m-%d')`; `absolute`
for a `strftime` of the constructed calendar date; `echo s` for the
`return date_str` fallback (`tools.py:94`) returning the
lowered/stripped input unchanged. -/
inductive ParseDateResult where
  | relative (daysAhead : Nat)
  | absolute (y m d : Nat)
  | echo (s : List Char)
deriving DecidableEq, Repr

/-- Model of `DateTimeParser.parse_date` (`tools.py:14-94`).  `wd` is
`datetime.now().weekday()` (Monday = 0) and `todayYear` is
`datetime.now().year`. -/
def parseDate (dateStr : List Char) (wd todayYear : Nat) : ParseDateResult :=
  if dateStr.isEmpty then .relative 0
  else
    let d := stripL (lowerL dateStr)
    match relSection d wd with
    | some k => .relative k
    | none =>
      match formatSection d with
      | some (y, m, dd) => .absolute y m dd
      | none =>
        match slashSection d todayYear with
        | some (y, m, dd) => .absolute y m dd
        | none => .echo d

/-- Cleaning done by `parse_time` (`tools.py:102`):
`lower().strip().replace('.', '').replace(' ', '')`. -/
def cleanTime (s : List Char) : List Char :=
  ((stripL (lowerL s)).filter (· ≠ '.')).filter (· ≠ ' ')

/-- Leftmost match of `(\d{1,2})(?::(\d{2}))?\s*([ap]m)?` (`tools.py:105`):
since only the hour digits are mandatory, the match starts at the first
digit; returns (hour, minute, meridiem) with meridiem
`none`/`some false` (am)/`some true` (pm). -/
def timeMatchTools : List Char → Option (Nat × Nat × Option Bool)
  | [] => none
  | c :: rest =>
    if isDigitCh c then
      -- greedy \d{1,2}
      let (hds, r1) :=
        match rest with
        | b :: r => if isDigitCh b then ([c, b], r) else ([c], b :: r)
        | [] => ([c], [])
      -- optional :\d\d
      let (mins, r2) :=
        match r1 with
        | ':' :: x :: y :: r => if isDigitCh x ∧ isDigitCh y then (natFromDigits [x, y], r)
                                else (0, r1)
        | _ => (0, r1)
      -- \s* then optional [ap]m
      let r3 := (takeWs r2).2
      let mer : Option Bool :=
        match r3 with
        | 'a' :: 'm' :: _ => some false
        | 'p' :: 'm' :: _ => some true
        | _ => none
      some (natFromDigits hds, mins, mer)
    else timeMatchTools rest

/-- The hour adjustment shared by `parse_time` (`tools.py:111-118`) and
`agent_simple._extract_info` (`agent_simple.py:136-143`): `pm` adds 12
below noon, `12am` becomes 0, and a bare 1-11 hour is assumed evening
only when at most 5. -/
def adjustHour (hour : Nat) (mer : Option Bool) : Nat :=
  if mer = some true ∧ hour < 12 then hour + 12
  else if mer = some false ∧ hour = 12 then 0
  else if mer = none ∧ 1 ≤ hour ∧ hour ≤ 11 then
    (if hour ≤ 5 then hour + 12 else hour)
  else hour

/-- Model of `DateTimeParser.parse_time` (`tools.py:96-122`): empty input yields
the `'19:00'` default, an unmatched (digit-free) input is returned
cleaned but otherwise unchanged (`tools.py:122`). -/
def parseTime (timeStr : List Char) : List Char :=
  if timeStr.isEmpty then "19:00".data
  else
    let c := cleanTime timeStr
    match timeMatchTools c with
    | some (h, m, mer) => fmt02 (adjustHour h mer) ++ ':' :: fmt02 m
    | none => c

end Tools

namespace SimpleAgent

/-! Model of `backend/agent_simple.py`, class `SimpleBookingAgent`. -/

/-- The intent strings returned by `_detect_intent` (`agent_simple.py:75-97`). -/
inductive Intent where
  | check_availability
  | create_booking
  | cancel_booking
  | update_booking
  | get_booking
  | general
deriving DecidableEq, Repr

/-- Python `any(word in message_lower for word in ws)`. -/
def anyKeyword (ws : List (List Char)) (m : List Char) : Bool :=
  ws.any (fun w => PyStr.hasSub w m)

/-- Model of `_detect_intent` (`agent_simple.py:75-97`): keyword branches in
source order, then continuation of a short reply, else `general`. -/
def detectIntent (message : List Char) (lastIntent : Option Intent) : Intent :=
  let ml := PyStr.lowerL message
  if anyKeyword ["availability".data, "available".data, "free".data, "open".data] ml then
    .check_availability
  else if anyKeyword ["book".data, "reserve".data, "reservation".data, "table".data] ml then
    .create_booking
  else if anyKeyword ["cancel".data, "cancellation".data] ml then
    .cancel_booking
  else if anyKeyword ["change".data, "modify".data, "update".data, "reschedule".data] ml then
    .update_booking
  else if anyKeyword ["check".data, "status".data, "details".data, "my booking".data,
      "reference".data] ml then
    .get_booking
  else
    match lastIntent with
    | some li =>
      if li ≠ .general ∧ (PyStr.wordsOf message).length < 10 then li else .general
    | none => .general

/-- Greedy capture of `([A-Z][a-z]+(?:\s+[A-Z][a-z]+)*)` under
`re.IGNORECASE` (so: a word of at least two letters, then further such
words each preceded by whitespace), returning the matched slice of the
input. -/
def nameGroupGo : Nat → List Char → Option (List Char)
  | _, [] => none
  | _, [_] => none
  | 0, _ :: _ :: _ => none
  | fuel + 1, a :: b :: rest =>
    if PyStr.isAlphaCh a ∧ PyStr.isAlphaCh b then
      let word := (a :: b :: rest).takeWhile PyStr.isAlphaCh
      let r1 := (a :: b :: rest).dropWhile PyStr.isAlphaCh
      let ws := r1.takeWhile PyStr.isWsCh
      let r2 := r1.dropWhile PyStr.isWsCh
      if ws.isEmpty then some word
      else
        match nameGroupGo fuel r2 with
        | some more => some (word ++ ws ++ more)
        | none => some word
    else none

/-- Each recursion step consumes at least one word and one whitespace
character, so fuel equal to the string length is never exhausted. -/
def nameGroup (s : List Char) : Option (List Char) :=
  nameGroupGo s.length s

/-- The trigger literals of the first name pattern
`(?:my name is|i'm|i am|it's|name:)` (`agent_simple.py:106`), tried in
alternation order, case-insensitively. -/
def nameTriggers : List (List Char) :=
  ["my name is".data, "i'm".data, "i am".data, "it's".data, "name:".data]

/-- The `re.search` of name pattern 1 (`agent_simple.py:106`): at each
position try the trigger alternatives in order, then `\s+`, then the
capturing group. -/
def searchNamePat1 (s : List Char) : Option (List Char) :=
  match s with
  | [] => none
  | _ :: rest =>
    let ls := PyStr.lowerL s
    let tryHere : Option (List Char) :=
      nameTriggers.foldl
        (fun acc trig =>
          match acc with
          | some r => some r
          | none =>
            if trig.isPrefixOf ls then
              let r1 := s.drop trig.length
              let ws := r1.takeWhile PyStr.isWsCh
              if ws.isEmpty then none
              else nameGroup (r1.dropWhile PyStr.isWsCh)
            else none)
        none
    match tryHere with
    | some r => some r
    | none => searchNamePat1 rest

/-- Full-string match of name pattern 2
`^([A-Z][a-z]+(?:\s+[A-Z][a-z]+)*)$` with `re.IGNORECASE`
(`agent_simple.py:107`). -/
def matchNamePat2 (s : List Char) : Option (List Char) :=
  match nameGroup s with
  | some g => if g = s then some g else none
  | none => none

/-- The name-pattern loop of `_extract_info` (`agent_simple.py:104-116`):
first matching pattern breaks the loop; the candidate is kept only if it
has at most 4 words and no digit. -/
def nameFromPatterns (message : List Char) : Option (List Char) :=
  let fromMatch : List Char → Option (List Char) := fun m =>
    let name := PyStr.stripL m
    if (PyStr.wordsOf name).length ≤ 4 ∧ ¬ name.any PyStr.isDigitCh then
      some (PyStr.titleL name)
    else none
  match searchNamePat1 message with
  | some m => fromMatch m
  | none =>
    match matchNamePat2 message with
    | some m => fromMatch m
    | none => none

/-- The bare-words name heuristic (`agent_simple.py:118-123`): a 1-3 word
digit-free message whose first word is capitalised, or all of whose
words start lowercase, is taken as a name. -/
def nameFromBareWords (message : List Char) : Option (List Char) :=
  let words := PyStr.wordsOf (PyStr.stripL message)
  if 1 ≤ words.length ∧ words.length ≤ 3 ∧ ¬ message.any PyStr.isDigitCh then
    let firstUpper : Bool :=
      match words with
      | (c :: _) :: _ => decide ('A' ≤ c ∧ c ≤ 'Z')
      | _ => false
    let allLower : Bool := words.all (fun w =>
      match w with
      | c :: _ => decide ('a' ≤ c ∧ c ≤ 'z')
      | [] => false)
    if firstUpper ∨ allLower then
      some (PyStr.titleL (List.intercalate [' '] words))
    else none
  else none

/-- The `customer_name` field produced by `_extract_info`
(`agent_simple.py:104-123`): the bare-words heuristic runs after the
pattern loop and overwrites its result when it fires. -/
def extractNameField (message : List Char) : Option (List Char) :=
  match nameFromBareWords message with
  | some n => some n
  | none => nameFromPatterns message

/-- Match of `\b(\d{1,2})(?::(\d{2}))?\s*(am|pm)?\b` at the head of the
input given the previous character (`agent_simple.py:130`): greedy hour
digits and minute group with the backtracking the trailing `\b`
permits.  Returns (hour, minute-group-or-none, meridiem). -/
def timeSimpleAt (prev : Option Char) (s : List Char) :
    Option (Nat × Option (List Char) × Option Bool) :=
  if ¬ PyStr.atWordStart prev then none
  else
    let finish : Nat → Option (List Char) → List Char →
        Option (Nat × Option (List Char) × Option Bool) := fun h m r =>
      let ws := r.takeWhile PyStr.isWsCh
      let rw := r.dropWhile PyStr.isWsCh
      -- (am|pm)? tried first, needing a word boundary after the 'm'
      match rw with
      | 'a' :: 'm' :: r2 =>
        if PyStr.wordEndAt r2 then some (h, m, some false)
        else if ¬ ws.isEmpty ∨ PyStr.wordEndAt r then some (h, m, none) else none
      | 'p' :: 'm' :: r2 =>
        if PyStr.wordEndAt r2 then some (h, m, some true)
        else if ¬ ws.isEmpty ∨ PyStr.wordEndAt r then some (h, m, none) else none
      | _ =>
        -- group absent: some amount of \s* backtracking always leaves a
        -- boundary when ws is non-empty, else the next char decides
        if ¬ ws.isEmpty ∨ PyStr.wordEndAt r then some (h, m, none) else none
    let withHour : List Char → List Char →
        Option (Nat × Option (List Char) × Option Bool) := fun hds r1 =>
      -- optional (?::(\d{2})) tried greedily, then without
      let withMin :=
        match r1 with
        | ':' :: x :: y :: r2 =>
          if PyStr.isDigitCh x ∧ PyStr.isDigitCh y then
            finish (PyStr.natFromDigits hds) (some [x, y]) r2
          else none
        | _ => none
      match withMin with
      | some res => some res
      | none => finish (PyStr.natFromDigits hds) none r1
    match s with
    | a :: b :: rest =>
      if PyStr.isDigitCh a then
        if PyStr.isDigitCh b then
          match withHour [a, b] rest with
          | some res => some res
          | none => withHour [a] (b :: rest)
        else withHour [a] (b :: rest)
      else none
    | [a] => if PyStr.isDigitCh a then withHour [a] [] else none
    | [] => none

/-- The `re.search` of the time pattern over the lowered message
(`agent_simple.py:130`). -/
def timeSimpleSearch (prev : Option Char) (s : List Char) :
    Option (Nat × Option (List Char) × Option Bool) :=
  match s with
  | [] => none
  | c :: rest =>
    match timeSimpleAt prev s with
    | some r => some r
    | none => timeSimpleSearch (some c) rest

/-- The time field of `_extract_info` (`agent_simple.py:129-145`):
`minute = group(2) or '00'`, pm/am/bare-hour adjustment as in
`Tools.adjustHour`, formatted `f"{hour:02d}:{minute}"`. -/
def extractTimeField (message : List Char) : Option (List Char) :=
  match timeSimpleSearch none (PyStr.lowerL message) with
  | some (h, m, mer) =>
    some (PyStr.fmt02 (Tools.adjustHour h mer) ++ ':' :: m.getD "00".data)
  | none => none

/-- Leftmost match of `\b(\d+)\s*(?:people|persons?|guests?|pax)\b`
(`agent_simple.py:149`). -/
def partyPat1At (prev : Option Char) (s : List Char) : Option Nat :=
  if ¬ PyStr.atWordStart prev then none
  else
    let (ds, r1) := PyStr.takeDigits s
    if ds.isEmpty then none
    else
      let r2 := r1.dropWhile PyStr.isWsCh
      let alt : List Char → Bool → Bool := fun lit optS =>
        (lit.isPrefixOf r2 ∧
          ((optS ∧ (r2.drop lit.length).head? = some 's' ∧
              PyStr.wordEndAt (r2.drop (lit.length + 1))) ∨
            PyStr.wordEndAt (r2.drop lit.length)))
      if alt "people".data false ∨ alt "person".data true ∨
          alt "guest".data true ∨ alt "pax".data false then
        some (PyStr.natFromDigits ds)
      else none

/-- Leftmost match of `\bfor\s+(\d+)\b` (`agent_simple.py:150`). -/
def partyPat2At (prev : Option Char) (s : List Char) : Option Nat :=
  if ¬ PyStr.atWordStart prev then none
  else if "for".data.isPrefixOf s then
    let r1 := s.drop 3
    let ws := r1.takeWhile PyStr.isWsCh
    if ws.isEmpty then none
    else
      let (ds, r2) := PyStr.takeDigits (r1.dropWhile PyStr.isWsCh)
      if ¬ ds.isEmpty ∧ PyStr.wordEndAt r2 then some (PyStr.natFromDigits ds) else none
  else none

/-- Leftmost match of `\btable\s+(?:for\s+)?(\d+)\b` (`agent_simple.py:151`). -/
def partyPat3At (prev : Option Char) (s : List Char) : Option Nat :=
  if ¬ PyStr.atWordStart prev then none
  else if "table".data.isPrefixOf s then
    let r1 := s.drop 5
    let ws := r1.takeWhile PyStr.isWsCh
    if ws.isEmpty then none
    else
      let r2 := r1.dropWhile PyStr.isWsCh
      let digitsHere : List Char → Option Nat := fun r =>
        let (ds, r') := PyStr.takeDigits r
        if ¬ ds.isEmpty ∧ PyStr.wordEndAt r' then some (PyStr.natFromDigits ds) else none
      -- greedy optional (?:for\s+) first, else digits directly
      let withFor :=
        if "for".data.isPrefixOf r2 then
          let r3 := r2.drop 3
          if (r3.takeWhile PyStr.isWsCh).isEmpty then none
          else digitsHere (r3.dropWhile PyStr.isWsCh)
        else none
      match withFor with
      | some n => some n
      | none => digitsHere r2
  else none

/-- Leftmost match of `\bparty\s+of\s+(\d+)\b` (`agent_simple.py:152`). -/
def partyPat4At (prev : Option Char) (s : List Char) : Option Nat :=
  if ¬ PyStr.atWordStart prev then none
  else if "party".data.isPrefixOf s then
    let r1 := s.drop 5
    if (r1.takeWhile PyStr.isWsCh).isEmpty then none
    else
      let r2 := r1.dropWhile PyStr.isWsCh
      if "of".data.isPrefixOf r2 then
        let r3 := r2.drop 2
        if (r3.takeWhile PyStr.isWsCh).isEmpty then none
        else
          let (ds, r4) := PyStr.takeDigits (r3.dropWhile PyStr.isWsCh)
          if ¬ ds.isEmpty ∧ PyStr.wordEndAt r4 then some (PyStr.natFromDigits ds) else none
      else none
  else none

/-- The `re.search` driver for a position-wise matcher. -/
def searchWith (patAt : Option Char → List Char → Option Nat)
    (prev : Option Char) (s : List Char) : Option Nat :=
  match s with
  | [] => none
  | c :: rest =>
    match patAt prev s with
    | some n => some n
    | none => searchWith patAt (some c) rest

/-- The party-size field of `_extract_info` (`agent_simple.py:147-158`):
the four patterns are tried in order over the lowered message; the
first pattern that matches stores its captured integer, with **no**
range check. -/
def extractPartyField (message : List Char) : Option Nat :=
  let ml := PyStr.lowerL message
  match searchWith partyPat1At none ml with
  | some n => some n
  | none =>
    match searchWith partyPat2At none ml with
    | some n => some n
    | none =>
      match searchWith partyPat3At none ml with
      | some n => some n
      | none => searchWith partyPat4At none ml

/-- Model of `_parse_date_from_text` (`agent_simple.py:168-202`): its own keyword
chain (note the extra `tonight` and the dedicated `friday` branch), a
weekday loop **without** any `'next'` handling, then a fallback to
`DateTimeParser.parse_date` on the raw text. -/
def simpleRelSection (tl : List Char) (wd : Nat) : Option Nat :=
  if hasSub "today".data tl || hasSub "tonight".data tl then some 0
  else if hasSub "tomorrow".data tl then some 1
  else if hasSub "weekend".data tl || hasSub "saturday".data tl then
    some (Tools.nextWeekdayOffset 5 wd)
  else if hasSub "sunday".data tl then some (Tools.nextWeekdayOffset 6 wd)
  else if hasSub "friday".data tl then some (Tools.nextWeekdayOffset 4 wd)
  else
    [0, 1, 2, 3, 4, 5, 6].foldl
      (fun acc i =>
        match acc with
        | some k => some k
        | none =>
          if hasSub (Tools.weekdayName i) tl then some (Tools.nextWeekdayOffset i wd)
          else none)
      none

def parseDateFromText (text : List Char) (wd todayYear : Nat) : Tools.ParseDateResult :=
  match simpleRelSection (PyStr.lowerL text) wd with
  | some k => .relative k
  | none => Tools.parseDate text wd todayYear

/-- The date-keyword guard of `_extract_info` (`agent_simple.py:126-127`). -/
def dateKeywords : List (List Char) :=
  ["today".data, "tonight".data, "tomorrow".data, "weekend".data, "saturday".data,
   "sunday".data, "monday".data, "tuesday".data, "wednesday".data, "thursday".data,
   "friday".data]

def extractDateField (message : List Char) (wd todayYear : Nat) :
    Option Tools.ParseDateResult :=
  if anyKeyword dateKeywords (PyStr.lowerL message) then
    some (parseDateFromText message wd todayYear)
  else none

/-- Leftmost match of `\b([A-Z0-9]{6,8})\b` over the upper-cased message
(`agent_simple.py:161-164`): a maximal `[A-Z0-9]` run of length 6-8
delimited by word boundaries (an adjacent `_` defeats the boundary). -/
def refClassCh (c : Char) : Bool := ('A' ≤ c ∧ c ≤ 'Z') ∨ PyStr.isDigitCh c

def refSearch (prev : Option Char) (s : List Char) : Option (List Char) :=
  match s with
  | [] => none
  | c :: rest =>
    let here : Option (List Char) :=
      if PyStr.atWordStart prev then
        let run := s.takeWhile refClassCh
        let after := s.dropWhile refClassCh
        if 6 ≤ run.length ∧ run.length ≤ 8 ∧ PyStr.wordEndAt after then some run
        else none
      else none
    match here with
    | some r => some r
    | none => refSearch (some c) rest

def extractRefField (message : List Char) : Option (List Char) :=
  refSearch none (PyStr.upperL message)

/-- The partial-slots dictionary built by `_extract_info`
(`agent_simple.py:99-166`); a `none` field is an absent key. -/
structure ExtractedInfo where
  customer_name : Option (List Char) := none
  date : Option Tools.ParseDateResult := none
  time : Option (List Char) := none
  party_size : Option Nat := none
  booking_id : Option (List Char) := none
deriving DecidableEq, Repr

/-- Model of `_extract_info` (`agent_simple.py:99-166`), assembling the five
extraction sections. -/
def extractInfo (message : List Char) (wd todayYear : Nat) : ExtractedInfo :=
  { customer_name := extractNameField message
    date := extractDateField message wd todayYear
    time := extractTimeField message
    party_size := extractPartyField message
    booking_id := extractRefField message }

/-- The `booking_context` dict of a session (`agent_simple.py:41`); the
keys are exactly those `_extract_info` can produce plus
`special_requests` (read with a default, never written). -/
structure Ctx where
  customer_name : Option (List Char) := none
  date : Option Tools.ParseDateResult := none
  time : Option (List Char) := none
  party_size : Option Nat := none
  booking_id : Option (List Char) := none
deriving DecidableEq, Repr

/-- The context-update loop of `process_message` (`agent_simple.py:51-54`):
every non-`None` extracted value is written into the context,
overwriting whatever was there. -/
def mergeContext (ctx : Ctx) (info : ExtractedInfo) : Ctx :=
  { customer_name := info.customer_name.orElse fun _ => ctx.customer_name
    date := info.date.orElse fun _ => ctx.date
    time := info.time.orElse fun _ => ctx.time
    party_size := info.party_size.orElse fun _ => ctx.party_size
    booking_id := info.booking_id.orElse fun _ => ctx.booking_id }

/-- Outcome of a `BookingAPIClient` call as seen by the handlers
(`agent_simple.py` wraps every call in `try/except`): a result dict
with `success` and optional data, or a raised exception. -/
inductive ApiOutcome where
  | result (success : Bool) (bookingRef : Option (List Char)) (authError : Bool)
  | raised
deriving DecidableEq, Repr

/-- Responses of the handlers, abstracted to which branch produced them
(the literal f-string texts carry no further logic). -/
inductive Response where
  | askName
  | askDate
  | askTime
  | askPartySize
  | bookingConfirmed (ref : List Char)
  | bookingAuthFallback
  | bookingFailed
  | bookingException
  | askAvailabilityDate
  | availabilityResult
  | availabilityFailed
  | askReference
  | getResult
  | getFailed
  | updateAskChanges
  | updateResult
  | updateFailed
  | cancelResult
  | cancelFailed
  | otherException
  | menu
deriving DecidableEq, Repr

/-- Model of `_handle_create_booking` (`agent_simple.py:248-295`).  The required
fields are scanned in the fixed order `customer_name, date, time,
party_size` and the first missing one is prompted for; on a complete
context the API result is rendered.  The context is only read, never
written: no branch clears it. -/
def handleCreateBooking (ctx : Ctx) (api : ApiOutcome) : Response :=
  if ctx.customer_name.isNone then .askName
  else if ctx.date.isNone then .askDate
  else if ctx.time.isNone then .askTime
  else if ctx.party_size.isNone then .askPartySize
  else
    match api with
    | .result true ref _ => .bookingConfirmed (ref.getD "PENDING".data)
    | .result false _ authErr => if authErr then .bookingAuthFallback else .bookingFailed
    | .raised => .bookingException

/-- Model of `_handle_cancel_booking` (`agent_simple.py:351-366`). -/
def handleCancelBooking (ctx : Ctx) (api : ApiOutcome) : Response :=
  if ctx.booking_id.isNone then .askReference
  else
    match api with
    | .result true _ _ => .cancelResult
    | .result false _ _ => .cancelFailed
    | .raised => .otherException

/-- Model of `_handle_get_booking` (`agent_simple.py:297-320`). -/
def handleGetBooking (ctx : Ctx) (api : ApiOutcome) : Response :=
  if ctx.booking_id.isNone then .askReference
  else
    match api with
    | .result true _ _ => .getResult
    | .result false _ _ => .getFailed
    | .raised => .otherException

/-- Model of `_handle_update_booking` (`agent_simple.py:322-349`). -/
def handleUpdateBooking (ctx : Ctx) (api : ApiOutcome) : Response :=
  if ctx.booking_id.isNone then .askReference
  else if ctx.date.isNone ∧ ctx.time.isNone ∧ ctx.party_size.isNone then
    .updateAskChanges
  else
    match api with
    | .result true _ _ => .updateResult
    | .result false _ _ => .updateFailed
    | .raised => .otherException

/-- Model of `_handle_check_availability` (`agent_simple.py:220-246`). -/
def handleCheckAvailability (ctx : Ctx) (api : ApiOutcome) : Response :=
  if ctx.date.isNone then .askAvailabilityDate
  else
    match api with
    | .result true _ _ => .availabilityResult
    | .result false _ authErr => if authErr then .bookingAuthFallback else .availabilityFailed
    | .raised => .otherException

/-- Model of `_execute_intent` (`agent_simple.py:204-218`). -/
def executeIntent (intent : Intent) (ctx : Ctx) (api : ApiOutcome) : Response :=
  match intent with
  | .check_availability => handleCheckAvailability ctx api
  | .create_booking => handleCreateBooking ctx api
  | .get_booking => handleGetBooking ctx api
  | .update_booking => handleUpdateBooking ctx api
  | .cancel_booking => handleCancelBooking ctx api
  | .general => .menu

/-- One turn of `SimpleBookingAgent.process_message`
(`agent_simple.py:34-73`) at the level of the session's
`booking_context` and `last_intent`: extract, merge (overwriting),
classify, execute.  `api` abstracts the outcome of whatever
booking-service call the selected handler makes. -/
def processTurn (ctx : Ctx) (lastIntent : Option Intent) (message : List Char)
    (wd todayYear : Nat) (api : ApiOutcome) : Ctx × Intent × Response :=
  let info := extractInfo message wd todayYear
  let ctx' := mergeContext ctx info
  let intent := detectIntent message lastIntent
  (ctx', intent, executeIntent intent ctx' api)

end SimpleAgent

namespace OllamaAgent

/-! Model of `backend/agent_ollama.py`, `_extract_booking_info_from_message`
(party-size section, lines 421-433).  -/

/-- Leftmost match of `\b(\d+)\s*(?:people?|guests?|persons?)\b`
(`agent_ollama.py:423`): note `people?` makes its final `e` optional. -/
def ollamaPat1At (prev : Option Char) (s : List Char) : Option Nat :=
  if ¬ PyStr.atWordStart prev then none
  else
    let (ds, r1) := PyStr.takeDigits s
    if ds.isEmpty then none
    else
      let r2 := r1.dropWhile PyStr.isWsCh
      let alt : List Char → Char → Bool := fun lit opt =>
        (lit.isPrefixOf r2 ∧
          (((r2.drop lit.length).head? = some opt ∧
              PyStr.wordEndAt (r2.drop (lit.length + 1))) ∨
            PyStr.wordEndAt (r2.drop lit.length)))
      if alt "peopl".data 'e' ∨ alt "guest".data 's' ∨ alt "person".data 's' then
        some (PyStr.natFromDigits ds)
      else none

/-- Leftmost match of `\b(?:party of|table for|reservation for)\s*(\d+)\b`
(`agent_ollama.py:424`): a literal phrase (single interior space), then
`\s*` (possibly empty), then digits. -/
def ollamaPat2At (prev : Option Char) (s : List Char) : Option Nat :=
  if ¬ PyStr.atWordStart prev then none
  else
    let lits := ["party of".data, "table for".data, "reservation for".data]
    lits.foldl
      (fun acc lit =>
        match acc with
        | some n => some n
        | none =>
          if lit.isPrefixOf s then
            let (ds, r2) := PyStr.takeDigits ((s.drop lit.length).dropWhile PyStr.isWsCh)
            if ¬ ds.isEmpty ∧ PyStr.wordEndAt r2 then some (PyStr.natFromDigits ds)
            else none
          else none)
      none

/-- Leftmost match of `\b(\d+)\b(?!\s*(?:pm|am|:))` (`agent_ollama.py:425`):
a delimited digit run whose negative lookahead rejects it when optional
whitespace followed by `pm`, `am` or `:` follows. -/
def ollamaPat3At (prev : Option Char) (s : List Char) : Option Nat :=
  if ¬ PyStr.atWordStart prev then none
  else
    let (ds, r1) := PyStr.takeDigits s
    if ds.isEmpty ∨ ¬ PyStr.wordEndAt r1 then none
    else
      let r2 := r1.dropWhile PyStr.isWsCh
      if "pm".data.isPrefixOf r2 ∨ "am".data.isPrefixOf r2 ∨ r2.head? = some ':' then
        none
      else some (PyStr.natFromDigits ds)

/-- One iteration of the party-size loop (`agent_ollama.py:428-433`):
a pattern's match is stored (and the loop left) **only** when
`1 <= num <= 20`; no match, or an out-of-range match, falls through to
the next pattern. -/
def rangeGate (o : Option Nat) : Option Nat :=
  match o with
  | some n => if 1 ≤ n ∧ n ≤ 20 then some n else none
  | none => none

/-- The party-size extraction of `_extract_booking_info_from_message`
(`agent_ollama.py:421-433`): the three patterns in order, each behind
the `1 <= num <= 20` gate. -/
def extractPartySize (message : List Char) : Option Nat :=
  let ml := PyStr.lowerL message
  (rangeGate (SimpleAgent.searchWith ollamaPat1At none ml)).orElse fun _ =>
  (rangeGate (SimpleAgent.searchWith ollamaPat2At none ml)).orElse fun _ =>
  rangeGate (SimpleAgent.searchWith ollamaPat3At none ml)

end OllamaAgent

namespace Client

/-! Model of `backend/booking_client.py`, class `BookingAPIClient`. -/

/-- Flat Python values appearing in the dicts the engine manipulates. -/
inductive PyVal where
  | null
  | str (s : List Char)
  | num (n : Int)
deriving DecidableEq, Repr

/-- Python truthiness of such a value. -/
def pyTruthy : PyVal → Bool
  | .null => false
  | .str s => ¬ s.isEmpty
  | .num n => n ≠ 0

/-- What one `requests` call inside a client method can do: return a
decoded JSON body, raise a `requests.exceptions.RequestException`
(connection error, `raise_for_status`), or raise any other exception
(e.g. a JSON decode error that is not a `RequestException`). -/
inductive HttpOutcome where
  | ok (body : List (List Char × PyVal))
  | reqExc (msg : List Char)
  | otherExc (msg : List Char)
deriving DecidableEq, Repr

/-- The `{'success': ..., 'data'/'error': ...}` dicts the client returns. -/
structure ApiResult where
  success : Bool
  data : List (List Char × PyVal) := []
  error : Option (List Char) := none
deriving DecidableEq, Repr

/-- The shared `try/except requests.exceptions.RequestException` shape of
every client method (`booking_client.py:33-53` etc.): a request
exception is converted to `{'success': False, 'error': ...}`, any other
exception propagates out of the method. -/
def wrapCall (h : HttpOutcome) : Except (List Char) ApiResult :=
  match h with
  | .ok body => .ok { success := true, data := body }
  | .reqExc m => .ok { success := false, error := some m }
  | .otherExc m => .error m

/-- Model of `check_availability` (`booking_client.py:24-53`). -/
def checkAvailability (h : HttpOutcome) : Except (List Char) ApiResult := wrapCall h

/-- The result mapping of `create_booking` (`booking_client.py:55-103`). -/
def createBookingOutcome (h : HttpOutcome) : Except (List Char) ApiResult := wrapCall h

/-- Model of `get_booking` (`booking_client.py:105-124`). -/
def getBooking (h : HttpOutcome) : Except (List Char) ApiResult := wrapCall h

/-- Model of `cancel_booking` (`booking_client.py:161-186`). -/
def cancelBooking (h : HttpOutcome) : Except (List Char) ApiResult := wrapCall h

/-- Python `customer_name.strip().split(' ', 1)` (`booking_client.py:72`):
split at the first *space character* only, at most once.  Returns the
part before the space and, when a space exists, the entire remainder. -/
def splitOnceSpace : List Char → List Char × Option (List Char)
  | [] => ([], none)
  | c :: cs =>
    if c = ' ' then ([], some cs)
    else
      let (a, b) := splitOnceSpace cs
      (c :: a, b)

/-- Fields `Customer[FirstName]` and `Customer[Surname]` as `create_booking`
computes them (`booking_client.py:72-74`): `first_name = parts[0]`,
`surname = parts[1] if len(parts) > 1 else ''`. -/
def customerFields (customerName : List Char) : List Char × List Char :=
  match splitOnceSpace (PyStr.stripL customerName) with
  | (f, some r) => (f, r)
  | (f, none) => (f, [])

/-- Python `if len(time.split(':')) == 2: time = time + ':00'`
(`booking_client.py:77-78`). -/
def normalizeTime (time : List Char) : List Char :=
  if (time.count ':') = 1 then time ++ ":00".data else time

/-- The outbound form data of `create_booking` (`booking_client.py:80-92`);
built unconditionally — no local validation rejects a name. -/
structure BookingRequest where
  visitDate : List Char
  visitTime : List Char
  partySize : Nat
  firstName : List Char
  surname : List Char
deriving DecidableEq, Repr

def createBookingRequest (customerName date time : List Char) (partySize : Nat) :
    BookingRequest :=
  { visitDate := date
    visitTime := normalizeTime time
    partySize := partySize
    firstName := (customerFields customerName).1
    surname := (customerFields customerName).2 }

end Client

namespace AgentPy

/-! Model of `backend/agent.py`, class `BookingAgent` (the LLM-extraction agent). -/

open Client

/-- The decoded shape `json.loads` can hand back inside
`_understand_message` (`agent.py:108`): a JSON object (with flat
values), or a non-object document such as a list. -/
inductive OracleJson where
  | obj (fields : List (List Char × PyVal))
  | arrDoc
  | strDoc (s : List Char)
  | numDoc (n : Int)
  | nullDoc
deriving DecidableEq, Repr

/-- Behaviour of the oracle + defensive parse: the LLM call and
`json.loads` either produce a decoded document, or fail (timeout,
provider error, decode error) — the latter two are caught by the
`except` of `_understand_message` (`agent.py:112-114`). -/
inductive OracleOutcome where
  | decoded (j : OracleJson)
  | failed
deriving DecidableEq, Repr

/-- Model of `_understand_message` (`agent.py:58-114`): any exception inside the
`try` yields `{"intent": "unclear"}`; otherwise whatever `json.loads`
decoded — of any JSON type — is returned as-is. -/
def understand : OracleOutcome → OracleJson
  | .decoded j => j
  | .failed => .obj [("intent".data, .str "unclear".data)]

/-- The per-session `context` dict. -/
abbrev Ctx := List (List Char × PyVal)

/-- Python `context.get(key)` (absent key reads as `None`). -/
def getK (ctx : Ctx) (k : List Char) : PyVal := (ctx.lookup k).getD .null

/-- Python dict assignment `d[k] = v`: replace in place or append. -/
def setK (ctx : Ctx) (k : List Char) (v : PyVal) : Ctx :=
  if (ctx.lookup k).isSome then
    ctx.map (fun p => if p.1 = k then (k, v) else p)
  else ctx ++ [(k, v)]

/-- The context-update loop of `process_message` (`agent.py:250-253`):
every non-`None` value other than `intent` overwrites the context
entry. -/
def updateContext (ctx : Ctx) (fields : List (List Char × PyVal)) : Ctx :=
  fields.foldl
    (fun c kv =>
      if kv.2 = .null ∨ kv.1 = "intent".data then c else setK c kv.1 kv.2)
    ctx

/-- Response of a turn, abstracted to the branch that produced it. -/
inductive AgentResponse where
  | needInfoPrompt
  | bookingConfirmed
  | bookingFailedMsg
  | availabilityResp
  | checkBookingResp
  | cancelResp
  | updateResp
  | otherResp
deriving DecidableEq, Repr

/-- The `make_booking`/`provide_info` branch of `process_message`
(`agent.py:269-293`): when all four required slots are truthy the
booking is dispatched; on success the session context is **replaced** by
`{'last_booking_reference': booking_ref}` (`agent.py:289`); on failure
the context is kept and an apology returned; the client call is *not*
wrapped in any `try`, so a client exception propagates. -/
def bookingBranch (ctx : Ctx) (api : HttpOutcome) :
    Except (List Char) (AgentResponse × Ctx) :=
  let required := ["name".data, "date".data, "time".data, "party_size".data]
  if required.all (fun k => pyTruthy (getK ctx k)) then
    match createBookingOutcome api with
    | .error e => .error e
    | .ok r =>
      if r.success then
        let ref := (r.data.lookup "booking_reference".data).getD .null
        .ok (.bookingConfirmed, [("last_booking_reference".data, ref)])
      else .ok (.bookingFailedMsg, ctx)
  else .ok (.needInfoPrompt, ctx)

/-- The intent dispatch of `process_message` (`agent.py:258-314`). -/
def dispatch (intent : PyVal) (ctx : Ctx) (api : HttpOutcome) :
    Except (List Char) (AgentResponse × Ctx) :=
  if intent = .str "check_availability".data then
    if pyTruthy (getK ctx "date".data) then
      match checkAvailability api with
      | .error e => .error e
      | .ok _ => .ok (.availabilityResp, ctx)
    else .ok (.availabilityResp, ctx)
  else if intent = .str "make_booking".data ∨ intent = .str "provide_info".data then
    bookingBranch ctx api
  else if intent = .str "check_booking".data then
    if pyTruthy (getK ctx "booking_reference".data) then
      match getBooking api with
      | .error e => .error e
      | .ok _ => .ok (.checkBookingResp, ctx)
    else .ok (.checkBookingResp, ctx)
  else if intent = .str "cancel_booking".data then
    let ctx2 :=
      if ¬ pyTruthy (getK ctx "booking_reference".data) ∧
          pyTruthy (getK ctx "last_booking_reference".data) then
        setK ctx "booking_reference".data (getK ctx "last_booking_reference".data)
      else ctx
    if pyTruthy (getK ctx2 "booking_reference".data) then
      match cancelBooking api with
      | .error e => .error e
      | .ok _ => .ok (.cancelResp, ctx2)
    else .ok (.cancelResp, ctx2)
  else if intent = .str "update_booking".data then
    .ok (.updateResp, ctx)
  else .ok (.otherResp, ctx)

/-- One turn of `BookingAgent.process_message` (`agent.py:231-323`) at
the level of the session `context`, with the single outbound call this
turn may make abstracted by `api`.  The method installs **no** exception
handler: a non-dict decoded oracle document makes
`understanding.get('intent', 'unclear')` (`agent.py:248`) raise
`AttributeError` out of the method, and a client exception propagates
through the dispatch. -/
def processMessage (oracle : OracleOutcome) (ctx : Ctx) (api : HttpOutcome) :
    Except (List Char) (AgentResponse × Ctx) :=
  match understand oracle with
  | .obj fs =>
    let intent := (fs.lookup "intent".data).getD (.str "unclear".data)
    let ctx' := updateContext ctx fs
    dispatch intent ctx' api
  | _ => .error "AttributeError".data

/-- A stored session (`agent.py:234-238`). -/
structure Session where
  context : Ctx := []
  history : List (Bool × List Char) := []
deriving DecidableEq, Repr

/-- The state created for an unseen session id (`agent.py:235-238`). -/
def freshSession : Session := {}

abbrev Sessions := List (List Char × Session)

/-- Model of `clear_memory` (`agent.py:25-28`): delete the entry when present.
The Python function has no `return` statement, so its value is `None`
on every path — rendered as the `Option Bool` component `none`. -/
def clearMemory (s : Sessions) (sid : List Char) : Sessions × Option Bool :=
  (if (s.lookup sid).isSome then s.filter (fun p => ¬ p.1 = sid) else s, none)

/-- The session read at the top of `process_message` (`agent.py:233-240`):
an unseen id gets `freshSession`. -/
def getOrCreate (s : Sessions) (sid : List Char) : Session :=
  (s.lookup sid).getD freshSession

end AgentPy

namespace OllamaAgent

/-- Model of `_fallback_response` (`agent_ollama.py:253-341`): its own body is
wrapped in `try/except`; an exception inside it yields the static
welcome menu (`agent_ollama.py:332-341`). -/
def fallbackResponse : Except (List Char) (List Char) → List Char
  | .ok r => r
  | .error _ => "welcome-menu".data

/-- The outermost `try/except Exception` of
`BookingAgent.process_message` in `agent_ollama.py:121-251`: the body's
outcome is returned when it succeeds, any raised exception is absorbed
by `_fallback_response`.  This method therefore always returns a
string. -/
def processBoundary (body fb : Except (List Char) (List Char)) : List Char :=
  match body with
  | .ok r => r
  | .error _ => fallbackResponse fb

end OllamaAgent

namespace Client

/-- Rendering of the claim's words "splits the name at the first
whitespace", for comparison with `customerFields` only: the first token
up to the first whitespace character and the remainder after it. -/
def claimWhitespaceSplit (name : List Char) : List Char × List Char :=
  let s := PyStr.stripL name
  (s.takeWhile (fun c => ¬ PyStr.isWsCh c),
   (s.dropWhile (fun c => ¬ PyStr.isWsCh c)).drop 1)

end Client

/-! Supporting lemmas. -/

theorem rangeGate_sound (o : Option Nat) (n : Nat)
    (h : OllamaAgent.rangeGate o = some n) : 1 ≤ n ∧ n ≤ 20 := by
  unfold OllamaAgent.rangeGate at h
  match o, h with
  | some m, h =>
    by_cases hr : 1 ≤ m ∧ m ≤ 20
    · simp [hr] at h
      exact h ▸ hr
    · simp [hr] at h

theorem orElse_sound {P : Nat → Prop} (a : Option Nat) (b : Unit → Option Nat)
    (ha : ∀ n, a = some n → P n) (hb : ∀ n, b () = some n → P n) :
    ∀ n, a.orElse b = some n → P n := by
  intro n h
  match a, h with
  | some m, h => exact ha n h
  | none, h => exact hb n h

theorem splitOnceSpace_no_space (l : List Char) (h : ' ' ∉ l) :
    Client.splitOnceSpace l = (l, none) := by
  induction l with
  | nil => rfl
  | cons c cs ih =>
    have hc : ¬ c = ' ' := fun hc => h (hc ▸ List.mem_cons_self c cs)
    have hcs : ' ' ∉ cs := fun hm => h (List.mem_cons_of_mem c hm)
    simp [Client.splitOnceSpace, hc, ih hcs]

theorem splitOnceSpace_space (l : List Char) (h : ' ' ∈ l) :
    ∃ a b, Client.splitOnceSpace l = (a, some b) ∧ ' ' ∉ a ∧ l = a ++ ' ' :: b := by
  induction l with
  | nil => cases h
  | cons c cs ih =>
    by_cases hc : c = ' '
    · exact ⟨[], cs, by simp [Client.splitOnceSpace, hc], by simp, by simp [hc]⟩
    · have hcs : ' ' ∈ cs := by
        cases List.mem_cons.mp h with
        | inl h0 => exact absurd h0.symm hc
        | inr h0 => exact h0
      obtain ⟨a, b, heq, hna, hl⟩ := ih hcs
      refine ⟨c :: a, b, ?_, ?_, ?_⟩
      · simp [Client.splitOnceSpace, hc, heq]
      · intro hm
        cases List.mem_cons.mp hm with
        | inl h0 => exact hc h0.symm
        | inr h0 => exact hna h0
      · simp [hl]

theorem lookup_filter_self (S : AgentPy.Sessions) (sid : List Char) :
    (S.filter (fun p => ¬ p.1 = sid)).lookup sid = none := by
  induction S with
  | nil => rfl
  | cons p rest ih =>
    by_cases h : p.1 = sid
    · have hd : decide (¬ p.1 = sid) = false := by simp [h]
      rw [List.filter_cons, hd, if_neg (by simp)]
      exact ih
    · have hd : decide (¬ p.1 = sid) = true := by simp [h]
      rw [List.filter_cons, hd, if_pos rfl]
      have hne : (sid == p.1) = false := beq_eq_false_iff_ne.mpr (Ne.symm h)
      cases p with
      | mk k v =>
        simp only [List.lookup]
        rw [show (sid == k) = false from hne]
        exact ih

/-! Theorems settling the claims. -/

/-- C1, counterexample: `agent_simple._extract_info` stores the
party-size candidate 21 extracted from "table for 21 people", although
the claim says a value outside [1, 20] is never stored. -/
theorem C1_counterexample :
    SimpleAgent.extractPartyField "table for 21 people".data = some 21 ∧
      ¬ (21 ≤ 20) := by
  decide

/-- C1 (amended): only `agent_ollama._extract_booking_info_from_message`
range-checks party size — every value it stores lies in [1, 20] — while
`agent_simple._extract_info` stores any matched integer without a range
check (here 0). -/
theorem C1_amended :
    (∀ (message : List Char) (n : Nat),
      OllamaAgent.extractPartySize message = some n → 1 ≤ n ∧ n ≤ 20) ∧
    SimpleAgent.extractPartyField "for 0".data = some 0 := by
  constructor
  · intro message n h
    unfold OllamaAgent.extractPartySize at h
    exact orElse_sound _ _ (fun k hk => rangeGate_sound _ k hk)
      (orElse_sound _ _ (fun k hk => rangeGate_sound _ k hk)
        (fun k hk => rangeGate_sound _ k hk)) n h
  · decide

/-- C1, witness for the amended theorem at "table for 4". -/
theorem C1_witness : (1 ≤ 4 ∧ 4 ≤ 20) ∧
    SimpleAgent.extractPartyField "for 0".data = some 0 :=
  ⟨C1_amended.1 "table for 4".data 4 (by decide), C1_amended.2⟩

/-- C2, counterexample: a full `agent_simple` turn whose create_booking
dispatch succeeds (confirmation response with the returned reference)
leaves every one of the four slots still stored in the session's
booking context — nothing is cleared and there is no step to reset. -/
theorem C2_counterexample :
    (SimpleAgent.processTurn
        { customer_name := some "John Smith".data,
          date := some (.relative 1), time := some "19:00".data,
          party_size := some 4 }
        (some .create_booking) "book table 4 people".data 0 2025
        (.result true (some "ABC1234".data) false)).2.2 =
      .bookingConfirmed "ABC1234".data ∧
    (SimpleAgent.processTurn
        { customer_name := some "John Smith".data,
          date := some (.relative 1), time := some "19:00".data,
          party_size := some 4 }
        (some .create_booking) "book table 4 people".data 0 2025
        (.result true (some "ABC1234".data) false)).1.customer_name.isSome ∧
    (SimpleAgent.processTurn
        { customer_name := some "John Smith".data,
          date := some (.relative 1), time := some "19:00".data,
          party_size := some 4 }
        (some .create_booking) "book table 4 people".data 0 2025
        (.result true (some "ABC1234".data) false)).1.date.isSome ∧
    (SimpleAgent.processTurn
        { customer_name := some "John Smith".data,
          date := some (.relative 1), time := some "19:00".data,
          party_size := some 4 }
        (some .create_booking) "book table 4 people".data 0 2025
        (.result true (some "ABC1234".data) false)).1.time.isSome ∧
    (SimpleAgent.processTurn
        { customer_name := some "John Smith".data,
          date := some (.relative 1), time := some "19:00".data,
          party_size := some 4 }
        (some .create_booking) "book table 4 people".data 0 2025
        (.result true (some "ABC1234".data) false)).1.party_size.isSome := by
  decide

/-- C2 (amended): in `agent.py` a successful create_booking dispatch
replaces the session context by one holding only
`last_booking_reference` — name, date, time and party_size are gone —
while `agent_simple` retains every already-stored slot across any turn,
including a successful booking turn; neither agent has a `step` field
that could be reset to GREETING. -/
theorem C2_amended :
    (∀ (ctx : AgentPy.Ctx) (body : List (List Char × Client.PyVal)),
      (["name".data, "date".data, "time".data, "party_size".data].all
          (fun k => Client.pyTruthy (AgentPy.getK ctx k)) = true) →
      ∃ ctx', AgentPy.bookingBranch ctx (.ok body) =
          .ok (.bookingConfirmed, ctx') ∧
        ctx'.lookup "name".data = none ∧
        ctx'.lookup "date".data = none ∧
        ctx'.lookup "time".data = none ∧
        ctx'.lookup "party_size".data = none ∧
        (ctx'.lookup "last_booking_reference".data).isSome) ∧
    (∀ (ctx : SimpleAgent.Ctx) (li : Option SimpleAgent.Intent)
        (msg : List Char) (wd y : Nat) (api : SimpleAgent.ApiOutcome),
      (ctx.customer_name.isSome →
        (SimpleAgent.processTurn ctx li msg wd y api).1.customer_name.isSome) ∧
      (ctx.date.isSome →
        (SimpleAgent.processTurn ctx li msg wd y api).1.date.isSome) ∧
      (ctx.time.isSome →
        (SimpleAgent.processTurn ctx li msg wd y api).1.time.isSome) ∧
      (ctx.party_size.isSome →
        (SimpleAgent.processTurn ctx li msg wd y api).1.party_size.isSome)) := by
  constructor
  · intro ctx body h
    refine ⟨[("last_booking_reference".data,
        (body.lookup "booking_reference".data).getD Client.PyVal.null)],
      ?_, rfl, rfl, rfl, rfl, rfl⟩
    unfold AgentPy.bookingBranch
    rw [if_pos h]
    rfl
  · intro ctx li msg wd y api
    unfold SimpleAgent.processTurn SimpleAgent.mergeContext
    refine ⟨fun h => ?_, fun h => ?_, fun h => ?_, fun h => ?_⟩ <;>
      · simp only []
        cases hx : (SimpleAgent.extractInfo msg wd y).customer_name <;>
        cases hy : (SimpleAgent.extractInfo msg wd y).date <;>
        cases hz : (SimpleAgent.extractInfo msg wd y).time <;>
        cases hw : (SimpleAgent.extractInfo msg wd y).party_size <;>
          simp_all [Option.orElse]

/-- C2, witness for the amended theorem. -/
theorem C2_witness :
    (∃ ctx', AgentPy.bookingBranch
        [("name".data, Client.PyVal.str "John Smith".data),
         ("date".data, Client.PyVal.str "2025-08-15".data),
         ("time".data, Client.PyVal.str "19:00".data),
         ("party_size".data, Client.PyVal.num 4)]
        (.ok [("booking_reference".data, Client.PyVal.str "ABC1234".data)]) =
          .ok (.bookingConfirmed, ctx') ∧
      ctx'.lookup "name".data = none ∧
      ctx'.lookup "date".data = none ∧
      ctx'.lookup "time".data = none ∧
      ctx'.lookup "party_size".data = none ∧
      (ctx'.lookup "last_booking_reference".data).isSome) ∧
    ((SimpleAgent.Ctx.mk (some "A".data) none none (some 4) none).party_size.isSome →
      (SimpleAgent.processTurn
          (SimpleAgent.Ctx.mk (some "A".data) none none (some 4) none)
          none "hi".data 0 2025 .raised).1.party_size.isSome) :=
  ⟨C2_amended.1 _ _ (by decide),
   (C2_amended.2 (SimpleAgent.Ctx.mk (some "A".data) none none (some 4) none)
      none "hi".data 0 2025 .raised).2.2.2⟩

/-- C3: the message "cancel my booking ABC1234" is classified as
`create_booking`, not `cancel_booking` — the create-booking keyword
branch (`'book' in message_lower`, matched inside "booking") is tested
before the cancel branch in `_detect_intent`, so the explicit cancel
intent is never serviced for this message, whatever the prior intent
state. -/
theorem C3_theorem :
    (∀ lastIntent : Option SimpleAgent.Intent,
      SimpleAgent.detectIntent "cancel my booking ABC1234".data lastIntent =
        .create_booking) ∧
    SimpleAgent.Intent.create_booking ≠ SimpleAgent.Intent.cancel_booking :=
  ⟨fun _ => rfl, by decide⟩

/-- C4, counterexample: `agent.py`'s `process_message` has no exception
handler, so when the oracle's reply decodes to a JSON list the
`understanding.get('intent', ...)` attribute access raises out of the
public boundary; and a booking-client call that fails with anything
other than a `RequestException` (here a JSON decode error) propagates
instead of being converted to a `success=false` result. -/
theorem C4_counterexample :
    AgentPy.processMessage (.decoded .arrDoc) [] (.ok []) =
      .error "AttributeError".data ∧
    Client.checkAvailability (.otherExc "Expecting value".data) =
      .error "Expecting value".data :=
  ⟨rfl, rfl⟩

/-- A `RequestException` never makes `dispatch` raise: every branch
converts it to a result value. -/
theorem dispatch_reqExc_ok (intent : Client.PyVal) (ctx : AgentPy.Ctx)
    (m : List Char) :
    ∃ v, AgentPy.dispatch intent ctx (.reqExc m) = .ok v := by
  simp only [AgentPy.dispatch, AgentPy.bookingBranch]
  split_ifs <;> exact ⟨_, rfl⟩

/-- C4 (amended): the booking client converts `RequestException`
failures into `{'success': False, 'error': ...}` values; with a
well-formed (JSON object) oracle reply `agent.py`'s `process_message`
returns a value even when the outbound call fails that way; but any
other exception — a non-`RequestException` client error or a non-object
oracle reply — propagates to the caller, except in `agent_ollama.py`
whose outermost `try/except` absorbs every exception into the fallback
responder. -/
theorem C4_amended :
    (∀ m : List Char, Client.checkAvailability (.reqExc m) =
      .ok { success := false, error := some m }) ∧
    (∀ m : List Char, Client.createBookingOutcome (.reqExc m) =
      .ok { success := false, error := some m }) ∧
    (∀ (fs : List (List Char × Client.PyVal)) (ctx : AgentPy.Ctx) (m : List Char),
      ∃ v, AgentPy.processMessage (.decoded (.obj fs)) ctx (.reqExc m) = .ok v) ∧
    (∀ (e : List Char) (fb : Except (List Char) (List Char)),
      OllamaAgent.processBoundary (.error e) fb = OllamaAgent.fallbackResponse fb) := by
  refine ⟨fun m => rfl, fun m => rfl, fun fs ctx m => ?_, fun e fb => rfl⟩
  exact dispatch_reqExc_ok _ _ m

/-- C5, counterexample: an unresolvable phrase is echoed back by
`parse_date` (the lowered/stripped input, not an unresolved signal),
and the empty phrase makes `parse_time` guess the default `'19:00'`. -/
theorem C5_counterexample :
    Tools.parseDate "gibberish".data 0 2025 = .echo "gibberish".data ∧
    Tools.parseTime [] = "19:00".data := by
  decide

/-- C5 (amended): whenever every recognizer fails — no relative keyword,
no `strptime` format, no day/month digits for `parse_date`; no digit at
all for `parse_time` — the input string itself (normalized: lowered and
stripped, and for times also stripped of dots and spaces) is returned,
and the empty time string yields the guessed default `'19:00'`; there
is no distinguished unresolved signal. -/
theorem C5_amended :
    (∀ (s : List Char) (wd y : Nat), s.isEmpty = false →
      Tools.relSection (PyStr.stripL (PyStr.lowerL s)) wd = none →
      Tools.formatSection (PyStr.stripL (PyStr.lowerL s)) = none →
      Tools.slashSection (PyStr.stripL (PyStr.lowerL s)) y = none →
      Tools.parseDate s wd y = .echo (PyStr.stripL (PyStr.lowerL s))) ∧
    (∀ s : List Char, s.isEmpty = false →
      Tools.timeMatchTools (Tools.cleanTime s) = none →
      Tools.parseTime s = Tools.cleanTime s) := by
  constructor
  · intro s wd y h0 h1 h2 h3
    simp [Tools.parseDate, h0, h1, h2, h3]
  · intro s h0 h1
    simp [Tools.parseTime, h0, h1]

/-- C5, witness for the amended theorem at "gibberish" / "soonish". -/
theorem C5_witness :
    Tools.parseDate "gibberish".data 0 2025 =
        .echo (PyStr.stripL (PyStr.lowerL "gibberish".data)) ∧
    Tools.parseTime "soonish".data = Tools.cleanTime "soonish".data :=
  ⟨C5_amended.1 "gibberish".data 0 2025 (by decide) (by decide) (by decide)
      (by decide),
   C5_amended.2 "soonish".data (by decide) (by decide)⟩

/-- C6, counterexample: "next saturday" resolves exactly like
"saturday" — the weekend/saturday branch of `parse_date` fires first
and ignores `'next'` — instead of the claimed 7 further days out
(from a Monday, offset 5 rather than 12). -/
theorem C6_counterexample :
    Tools.parseDate "next saturday".data 0 2025 = .relative 5 ∧
    Tools.parseDate "saturday".data 0 2025 = .relative 5 ∧
    (5 : Nat) ≠ 5 + 7 := by
  decide

/-- C6 (amended): for every reference weekday and every weekday name,
`parse_date` resolves the bare name strictly into the future — an
offset in [1, 7] landing on the named weekday, 7 when today already is
that weekday; `'next'` adds 7 only for monday through friday; for
saturday (and "weekend") and sunday the `'next'` qualifier is ignored;
`agent_simple._parse_date_from_text` ignores `'next'` for every
weekday. -/
theorem C6_amended :
    (∀ wd : Nat, wd < 7 → ∀ i : Nat, i < 7 → ∀ y : Nat,
      Tools.parseDate (Tools.weekdayName i) wd y =
          .relative (Tools.nextWeekdayOffset i wd) ∧
        1 ≤ Tools.nextWeekdayOffset i wd ∧ Tools.nextWeekdayOffset i wd ≤ 7 ∧
        (wd + Tools.nextWeekdayOffset i wd) % 7 = i) ∧
    (∀ wd : Nat, wd < 7 → ∀ i : Nat, i < 5 → ∀ y : Nat,
      Tools.parseDate ("next ".data ++ Tools.weekdayName i) wd y =
        .relative (Tools.nextWeekdayOffset i wd + 7)) ∧
    (∀ wd : Nat, wd < 7 → ∀ y : Nat,
      Tools.parseDate "next saturday".data wd y =
        Tools.parseDate "saturday".data wd y) ∧
    (∀ wd : Nat, wd < 7 → ∀ i : Nat, i < 7 → ∀ y : Nat,
      SimpleAgent.parseDateFromText ("next ".data ++ Tools.weekdayName i) wd y =
        .relative (Tools.nextWeekdayOffset i wd)) := by
  refine ⟨?_, ?_, ?_, ?_⟩
  · intro wd hwd i hi y
    interval_cases wd <;> interval_cases i <;>
      exact ⟨rfl, by decide, by decide, by decide⟩
  · intro wd hwd i hi y
    interval_cases wd <;> interval_cases i <;> rfl
  · intro wd hwd y
    interval_cases wd <;> rfl
  · intro wd hwd i hi y
    interval_cases wd <;> interval_cases i <;> rfl

/-- C6, witness for the amended theorem (Wednesday resolved from a
Monday). -/
theorem C6_witness :
    (Tools.parseDate (Tools.weekdayName 2) 0 2025 =
        .relative (Tools.nextWeekdayOffset 2 0) ∧
      1 ≤ Tools.nextWeekdayOffset 2 0 ∧ Tools.nextWeekdayOffset 2 0 ≤ 7 ∧
      (0 + Tools.nextWeekdayOffset 2 0) % 7 = 2) ∧
    Tools.parseDate ("next ".data ++ Tools.weekdayName 2) 0 2025 =
      .relative (Tools.nextWeekdayOffset 2 0 + 7) :=
  ⟨C6_amended.1 0 (by decide) 2 (by decide) 2025,
   C6_amended.2.1 0 (by decide) 2 (by decide) 2025⟩

/-- C7: the bare phrase "8" resolves to "08:00", not the "20:00" the
claim (and the repository's own test
`test_parse_time_without_meridiem`, which also expects
`parse_time('7:00') == '19:00'`) demands — the `+12` evening assumption
applies only to bare hours at most 5, in `DateTimeParser.parse_time`
and in `agent_simple._extract_info` alike. -/
theorem C7_theorem :
    Tools.parseTime "8".data = "08:00".data ∧
    Tools.parseTime "7:00".data = "07:00".data ∧
    SimpleAgent.extractTimeField "8".data = some "08:00".data ∧
    Tools.parseTime "3".data = "15:00".data ∧
    "08:00".data ≠ "20:00".data := by
  decide

/-- C8: with party_size 4 already stored, the message "table for 2" —
classified `create_booking` (pipeline continuation), not any
change/update intent — silently overwrites the slot with 2 in the same
turn, contradicting the claim (and the comment at
`agent_simple.py:51`). -/
theorem C8_theorem :
    SimpleAgent.detectIntent "table for 2".data (some .create_booking) =
        .create_booking ∧
    SimpleAgent.Intent.create_booking ≠ SimpleAgent.Intent.update_booking ∧
    (SimpleAgent.processTurn
        { customer_name := some "John Smith".data,
          date := some (.relative 1), time := some "19:00".data,
          party_size := some 4 }
        (some .create_booking) "table for 2".data 0 2025
        (.result true none false)).1.party_size = some 2 := by
  decide

/-- C9, counterexample: `clear_memory` has no return statement — its
value is `None` on every path, also for an unknown session id — so it
never reports not-found as `False`. -/
theorem C9_counterexample :
    (AgentPy.clearMemory [("s1".data, AgentPy.freshSession)] "unknown".data).2 =
        none ∧
    (none : Option Bool) ≠ some false := by
  refine ⟨rfl, by decide⟩

/-- C9 (amended): `clear_memory` destroys the named session's state and
is idempotent — clearing an unknown or already-cleared id changes
nothing — and a turn processed for that id afterwards starts from
exactly the state of a brand-new session; but the function returns
`None`, not a boolean. -/
theorem C9_amended :
    ∀ (S : AgentPy.Sessions) (sid : List Char),
      ((AgentPy.clearMemory S sid).1.lookup sid = none) ∧
      (AgentPy.clearMemory (AgentPy.clearMemory S sid).1 sid).1 =
        (AgentPy.clearMemory S sid).1 ∧
      AgentPy.getOrCreate (AgentPy.clearMemory S sid).1 sid =
        AgentPy.freshSession ∧
      AgentPy.getOrCreate ([] : AgentPy.Sessions) sid = AgentPy.freshSession := by
  intro S sid
  have hlk : (AgentPy.clearMemory S sid).1.lookup sid = none := by
    unfold AgentPy.clearMemory
    by_cases h : (S.lookup sid).isSome
    · rw [if_pos h]
      exact lookup_filter_self S sid
    · rw [if_neg h]
      exact Option.not_isSome_iff_eq_none.mp h
  refine ⟨hlk, ?_, ?_, rfl⟩
  · conv_lhs => rw [AgentPy.clearMemory]
    rw [hlk]
    simp
  · unfold AgentPy.getOrCreate
    rw [hlk]
    rfl

/-- C10, counterexample: a name whose first whitespace is a tab is not
split there — `create_booking` splits on the space character only, so
"John<TAB>Smith" is sent whole as `Customer[FirstName]` with an empty
surname, while the claim's first-whitespace reading would send "John" /
"Smith". -/
theorem C10_counterexample :
    Client.customerFields "John\tSmith".data = ("John\tSmith".data, []) ∧
    Client.claimWhitespaceSplit "John\tSmith".data =
      ("John".data, "Smith".data) ∧
    Client.customerFields "John\tSmith".data ≠
      Client.claimWhitespaceSplit "John\tSmith".data := by
  decide

/-- C10 (amended): the outbound request always carries the computed
first-name/surname pair, with no local rejection; the stripped name is
split at its first *space character*: no space means the whole name
becomes `Customer[FirstName]` with an empty surname, otherwise
`Customer[FirstName]` is the space-free prefix and `Customer[Surname]`
the entire remainder after that first space. -/
theorem C10_amended :
    (∀ name : List Char, ¬ ' ' ∈ PyStr.stripL name →
      Client.customerFields name = (PyStr.stripL name, [])) ∧
    (∀ name : List Char, ' ' ∈ PyStr.stripL name →
      ¬ ' ' ∈ (Client.customerFields name).1 ∧
      PyStr.stripL name =
        (Client.customerFields name).1 ++ ' ' :: (Client.customerFields name).2) ∧
    (∀ (name date time : List Char) (p : Nat),
      (Client.createBookingRequest name date time p).firstName =
          (Client.customerFields name).1 ∧
        (Client.createBookingRequest name date time p).surname =
          (Client.customerFields name).2) := by
  refine ⟨?_, ?_, fun name date time p => ⟨rfl, rfl⟩⟩
  · intro name h
    unfold Client.customerFields
    rw [splitOnceSpace_no_space _ h]
  · intro name h
    obtain ⟨a, b, heq, hna, hl⟩ := splitOnceSpace_space _ h
    unfold Client.customerFields
    rw [heq]
    exact ⟨hna, hl⟩

/-- C10, witness for the amended theorem at "Madonna" and "John Smith". -/
theorem C10_witness :
    Client.customerFields "Madonna".data = (PyStr.stripL "Madonna".data, []) ∧
    (¬ ' ' ∈ (Client.customerFields "John Smith".data).1 ∧
      PyStr.stripL "John Smith".data =
        (Client.customerFields "John Smith".data).1 ++
          ' ' :: (Client.customerFields "John Smith".data).2) :=
  ⟨C10_amended.1 "Madonna".data (by decide),
   C10_amended.2.1 "John Smith".data (by decide)⟩
